import Mathlib

/-!
Shallow embedding of the dstack-devops-playground distributed counter service.

The embedding covers the two core modules:
  * signature_proof.py : proof generation (`generate_proof`), registration-data
    assembly (`get_registration_data`) and structural proof validation
    (`verify_proof_format`);
  * counter.py : the leader-monitor poll cycle (`check_leader_status`), the
    voting helpers, and the counter mutation path (`increment_counter`).

External collaborators (the DStack key provider, the membership-ledger
contract, the liveness probe) are modelled as explicit environments: pure
functions whose outputs stand for the values the running program would have
received from those collaborators.  Byte strings are `List Nat`, hex text is
`String`, and Python exceptions become `Except` error values.
-/

/-- Container for signature chain proof components (signature_proof.py,
`SignatureProof` dataclass). -/
structure SignatureProof where
  instance_id_bytes32 : List Nat
  derived_public_key : List Nat
  app_signature : List Nat
  kms_signature : List Nat
  purpose : String
  app_id : List Nat
deriving DecidableEq

/-- Container for registration data (signature_proof.py, `RegistrationData`
dataclass).  Note: it has no `app_id` field. -/
structure RegistrationData where
  token_id : Nat
  instance_id_bytes32 : List Nat
  derived_public_key : List Nat
  app_signature : List Nat
  kms_signature : List Nat
  purpose : String
deriving DecidableEq

/-- Value of one hexadecimal digit, `none` for a non-hex character. -/
def hexDigitVal (c : Char) : Option Nat :=
  if '0' ≤ c ∧ c ≤ '9' then some (c.toNat - '0'.toNat)
  else if 'a' ≤ c ∧ c ≤ 'f' then some (c.toNat - 'a'.toNat + 10)
  else if 'A' ≤ c ∧ c ≤ 'F' then some (c.toNat - 'A'.toNat + 10)
  else none

/-- Python `bytes.fromhex` on a character list: two hex digits per byte,
spaces between bytes ignored, anything else is an error (`none`). -/
def hexDecodeL : List Char → Option (List Nat)
  | [] => some []
  | ' ' :: rest => hexDecodeL rest
  | hi :: lo :: rest =>
    match hexDigitVal hi, hexDigitVal lo with
    | some h, some l => (hexDecodeL rest).map (fun bs => (16 * h + l) :: bs)
    | _, _ => none
  | [_] => none

/-- Python `s.replace('0x', '')`: remove every non-overlapping occurrence of
the two-character pattern `0x`, scanning left to right. -/
def strip0x : List Char → List Char
  | '0' :: 'x' :: rest => strip0x rest
  | c :: rest => c :: strip0x rest
  | [] => []

/-- A signature-chain element as delivered by the key provider: either
hex-encoded text or raw bytes (signature_proof.py accepts both). -/
inductive SigItem where
  | str (s : String)
  | bytes (b : List Nat)
deriving DecidableEq

/-- The `isinstance(sig, str)` normalisation in `generate_proof`: a raw-bytes
element is kept, a text element has `0x` removed and is hex-decoded. -/
def normalizeSig : SigItem → Option (List Nat)
  | .bytes b => some b
  | .str s => hexDecodeL (strip0x s.data)

/-- The key provider's `get_key` response: a private key (hex text) and the
signature chain. -/
structure KeyResponse where
  key : String
  signature_chain : List SigItem

/-- Environment standing for the DStack client and the eth-account library:
the digest function, the `get_key` endpoint, the `info().app_id` metadata and
the private-key-to-address derivation (`Account.from_key(k).address`). -/
structure DstackEnv where
  sha256 : String → List Nat
  get_key : String → String → KeyResponse
  info_app_id : String
  from_key_address : String → String

/-- Failure modes of `generate_proof`: the explicit `RuntimeError` raised on a
short signature chain, and the `ValueError` a failed `bytes.fromhex` raises. -/
inductive GenError where
  | insufficientChain (n : Nat)
  | valueError
deriving DecidableEq

/-- signature_proof.py `SignatureProofGenerator.generate_proof`: hash the
instance id, fetch the key response, require a signature chain of length at
least 2, take elements 0 and 1 as app and KMS signatures, normalise them to
bytes, derive the 20-byte account identity, and pad the decoded `app_id` on
the right to 32 bytes. -/
def generate_proof (env : DstackEnv) (instance_id key_path key_purpose : String) :
    Except GenError SignatureProof :=
  let instance_id_bytes32 := env.sha256 instance_id
  let key_response := env.get_key key_path key_purpose
  match key_response.signature_chain with
  | [] => .error (.insufficientChain 0)
  | [_] => .error (.insufficientChain 1)
  | s0 :: s1 :: _ =>
    match normalizeSig s0, normalizeSig s1 with
    | some app_signature, some kms_signature =>
      match hexDecodeL ((env.from_key_address key_response.key).data.drop 2) with
      | some derived_public_key_bytes =>
        match hexDecodeL (env.info_app_id.data.drop 2) with
        | some app_id_bytes =>
          .ok { instance_id_bytes32 := instance_id_bytes32
                derived_public_key := derived_public_key_bytes
                app_signature := app_signature
                kms_signature := kms_signature
                purpose := key_purpose
                app_id := app_id_bytes ++ List.replicate (32 - app_id_bytes.length) 0 }
        | none => .error .valueError
      | none => .error .valueError
    | _, _ => .error .valueError

instance {ε α : Type} [DecidableEq ε] [DecidableEq α] :
    DecidableEq (Except ε α) := fun a b =>
  match a, b with
  | .error e1, .error e2 => decidable_of_iff (e1 = e2) (by simp)
  | .ok v1, .ok v2 => decidable_of_iff (v1 = v2) (by simp)
  | .error _, .ok _ => isFalse (by simp)
  | .ok _, .error _ => isFalse (by simp)

/-- The membership-ledger read used by `get_registration_data`:
`walletToTokenId`, with 0 meaning "no membership credential". -/
structure ContractEnv where
  walletToTokenId : String → Nat

/-- Failure modes of `get_registration_data`: the `RuntimeError` for a wallet
without an NFT, and a propagated `generate_proof` failure. -/
inductive RegError where
  | noNFT (wallet : String)
  | genError (e : GenError)
deriving DecidableEq

/-- signature_proof.py `SignatureProofGenerator.get_registration_data`:
query `walletToTokenId`, fail when it is 0, otherwise generate the proof and
assemble the registration data from its fields. -/
def get_registration_data (contract : ContractEnv) (env : DstackEnv)
    (wallet_address instance_id key_path key_purpose : String) :
    Except RegError RegistrationData :=
  let token_id := contract.walletToTokenId wallet_address
  if token_id = 0 then .error (.noNFT wallet_address)
  else
    match generate_proof env instance_id key_path key_purpose with
    | .error e => .error (.genError e)
    | .ok proof =>
      .ok { token_id := token_id
            instance_id_bytes32 := proof.instance_id_bytes32
            derived_public_key := proof.derived_public_key
            app_signature := proof.app_signature
            kms_signature := proof.kms_signature
            purpose := proof.purpose }

/-- signature_proof.py `SignatureProofGenerator.verify_proof_format`: the
structural check of a proof, returning false on the first violated rule. -/
def verify_proof_format (proof : SignatureProof) : Bool :=
  if proof.instance_id_bytes32.length ≠ 32 then false
  else if proof.derived_public_key.length ≠ 20 then false
  else if proof.app_signature.length < 65 then false
  else if proof.kms_signature.length < 65 then false
  else if proof.purpose = "" then false
  else if proof.app_id = [] then false
  else true

/-- One entry of the counter's operation log (counter.py, the dict appended
in `increment_counter`). -/
structure Operation where
  timestamp : Nat
  operation : String
  new_value : Nat
  leader : String
deriving DecidableEq

/-- The mutable node state of counter.py's `DistributedCounter` that the
claims are about: counter value, operation log, leadership flag and the
heartbeat timestamp, initialised as in `__init__`. -/
structure CounterState where
  counter_value : Nat
  operation_log : List Operation
  is_leader : Bool
  last_leader_heartbeat : Nat
deriving DecidableEq

/-- `DistributedCounter.__init__`: counter 0, empty log, follower. -/
def initState : CounterState :=
  { counter_value := 0, operation_log := [], is_leader := false
    last_leader_heartbeat := 0 }

/-- A vote transaction sent to the ledger by the monitor
(`castVote(target, noConfidence)`). -/
inductive VoteAction where
  | noConfidence (target : String)
  | confidence (target : String)
deriving DecidableEq

/-- The null/zero leader identity counter.py compares against. -/
def zeroAddress : String := "0x0000000000000000000000000000000000000000"

/-- counter.py `vote_no_confidence`: builds a `castVote(target, True)`
transaction and signs it with `self.wallet_private_key`; that attribute is
never assigned anywhere in the class, so with it absent (`none`) the sign
step raises and the blanket except swallows the error — no transaction is
sent.  Only if the attribute existed would the transaction go out. -/
def vote_no_confidence (wallet_private_key : Option String)
    (target_leader : String) : List VoteAction :=
  match wallet_private_key with
  | some _ => [VoteAction.noConfidence target_leader]
  | none => []

/-- counter.py `vote_confidence`: builds a `castVote(target, False)`
transaction; same never-assigned `self.wallet_private_key`, so with the
attribute absent the error is swallowed and no transaction is sent. -/
def vote_confidence (wallet_private_key : Option String)
    (target_leader : String) : List VoteAction :=
  match wallet_private_key with
  | some _ => [VoteAction.confidence target_leader]
  | none => []

/-- counter.py `DistributedCounter.check_leader_status`, one poll cycle:
`current_leader` is the value the ledger's `currentLeader()` returned this
cycle and `is_responsive` the outcome of `ping_leader` on it.
`wallet_private_key` is the node's `self.wallet_private_key` attribute,
which `__init__` never assigns (so it is `none` in the running program).
Returns the updated state and the vote transactions actually sent during
the cycle. -/
def check_leader_status (wallet_private_key : Option String)
    (wallet_address current_leader : String)
    (is_responsive : Bool) (st : CounterState) : CounterState × List VoteAction :=
  if current_leader = wallet_address then
    ({ st with is_leader := true }, [])
  else
    let st1 := { st with is_leader := false }
    if current_leader ≠ zeroAddress then
      if ¬ is_responsive then
        (st1, vote_no_confidence wallet_private_key current_leader)
      else (st1, vote_confidence wallet_private_key current_leader)
    else (st1, [])

/-- The outcome of the `/increment` handler: the intended 403 rejection, the
intended success response, or the NameError that escapes the handler because
counter.py never imports `web` or `time`. -/
inductive IncrementResponse where
  | forbidden
  | success (new_value : Nat) (operation_id : Nat)
  | nameError
deriving DecidableEq

/-- counter.py `DistributedCounter.increment_counter`: the non-leader branch
calls `web.json_response` for the 403, but `web` is never imported, so it
raises NameError with the state unchanged; the leader branch executes
`self.counter_value += 1` and then builds the operation dict, whose
`time.time()` raises NameError (`time` is never imported) before the
`operation_log.append` and before the success response — so the counter is
bumped but no log entry is ever appended. -/
def increment_counter (wallet_address : String) (now : Nat)
    (st : CounterState) : CounterState × IncrementResponse :=
  if ¬ st.is_leader then (st, .nameError)
  else
    let v := st.counter_value + 1
    ({ st with counter_value := v }, .nameError)

/-- One observable event in a node's life: a poll cycle of the leader
monitor (with the leader the ledger reported and the probe outcome), an
increment request, or a heartbeat tick of `leader_heartbeat`. -/
inductive NodeEvent where
  | poll (current_leader : String) (is_responsive : Bool)
  | incr (now : Nat)
  | heartbeat (now : Nat)

/-- State transition for one event.  The heartbeat case leaves the state
unchanged: `leader_heartbeat` calls `time.time()` before assigning
`last_leader_heartbeat`, and `time` is never imported, so the NameError is
caught by the loop's except and the timestamp is never updated. -/
def applyEvent (wallet_private_key : Option String) (wallet_address : String)
    (st : CounterState) : NodeEvent → CounterState
  | .poll cl r => (check_leader_status wallet_private_key wallet_address cl r st).1
  | .incr now => (increment_counter wallet_address now st).1
  | .heartbeat _ => st

/-- Run a sequence of events from the initial state. -/
def runEvents (wallet_private_key : Option String) (wallet_address : String)
    (evs : List NodeEvent) : CounterState :=
  evs.foldl (applyEvent wallet_private_key wallet_address) initState

/-- A state the counter service can actually be in. -/
def ReachableState (wallet_private_key : Option String)
    (wallet_address : String) (st : CounterState) : Prop :=
  ∃ evs, runEvents wallet_private_key wallet_address evs = st

/-- A concrete key-provider environment with a well-formed three-element
signature chain, a 20-byte derivable address and a 32-byte app id. -/
def envOk : DstackEnv :=
  { sha256 := fun _ => List.replicate 32 7
    get_key := fun _ _ =>
      { key := "aa"
        signature_chain :=
          [SigItem.bytes (List.replicate 65 1),
           SigItem.bytes (List.replicate 65 2),
           SigItem.bytes (List.replicate 65 3)] }
    info_app_id := String.mk ('0' :: 'x' :: List.replicate 64 '2')
    from_key_address := fun _ => String.mk ('0' :: 'x' :: List.replicate 40 '1') }

/-- Like `envOk` but with an empty signature chain. -/
def envShort : DstackEnv :=
  { envOk with get_key := fun _ _ => { key := "aa", signature_chain := [] } }

/-- Like `envOk` but with the chain truncated to its first two elements. -/
def envTwo : DstackEnv :=
  { envOk with get_key := fun _ _ =>
      { key := "aa"
        signature_chain :=
          [SigItem.bytes (List.replicate 65 1),
           SigItem.bytes (List.replicate 65 2)] } }

/-- Like `envOk` but whose app id decodes to 33 bytes. -/
def envLong : DstackEnv :=
  { envOk with info_app_id := String.mk ('0' :: 'x' :: List.replicate 66 '3') }

/-- Like `envOk` but with a different (still 32-byte) app id. -/
def envOkB : DstackEnv :=
  { envOk with info_app_id := String.mk ('0' :: 'x' :: List.replicate 64 '4') }

/-- Like `envOk` but whose two-element signature chain starts with a text
element that is not valid hex. -/
def envBadHex : DstackEnv :=
  { envOk with get_key := fun _ _ =>
      { key := "aa"
        signature_chain :=
          [SigItem.str "zz", SigItem.bytes (List.replicate 65 2)] } }

/-- A ledger environment whose `walletToTokenId` always returns 0. -/
def contractZero : ContractEnv := { walletToTokenId := fun _ => 0 }

/-- A ledger environment whose `walletToTokenId` always returns 1. -/
def contractOne : ContractEnv := { walletToTokenId := fun _ => 1 }

/-- The proof `generate_proof` produces in `envOk`. -/
def sampleProof : SignatureProof :=
  { instance_id_bytes32 := List.replicate 32 7
    derived_public_key := List.replicate 20 17
    app_signature := List.replicate 65 1
    kms_signature := List.replicate 65 2
    purpose := "ethereum"
    app_id := List.replicate 32 34 }

/-- The registration data `get_registration_data` produces in `envOk` under
`contractOne`. -/
def sampleRegData : RegistrationData :=
  { token_id := 1
    instance_id_bytes32 := List.replicate 32 7
    derived_public_key := List.replicate 20 17
    app_signature := List.replicate 65 1
    kms_signature := List.replicate 65 2
    purpose := "ethereum" }

/-- The five field rules exactly as the spec sentence for C1 lists them:
hash length, pubkey length, the two signature lengths, non-empty purpose —
and nothing about `app_id`. -/
def fiveFieldRules (p : SignatureProof) : Prop :=
  p.instance_id_bytes32.length = 32 ∧ p.derived_public_key.length = 20 ∧
  65 ≤ p.app_signature.length ∧ 65 ≤ p.kms_signature.length ∧ p.purpose ≠ ""

instance (p : SignatureProof) : Decidable (fiveFieldRules p) := by
  unfold fiveFieldRules; infer_instance

/-- A proof that satisfies all five rules of C1 but has an empty `app_id`. -/
def proofC1 : SignatureProof :=
  { instance_id_bytes32 := List.replicate 32 0
    derived_public_key := List.replicate 20 0
    app_signature := List.replicate 65 0
    kms_signature := List.replicate 65 0
    purpose := "ethereum"
    app_id := [] }

/-- C1 counterexample: `proofC1` satisfies all five field rules named by the
claim, yet `verify_proof_format` returns false (the code also requires a
non-empty `app_id`), so "for every proof satisfying all five rules it returns
true" is false. -/
theorem C1_counterexample :
    fiveFieldRules proofC1 ∧ verify_proof_format proofC1 = false := by
  decide

/-- C1 (amended): `verify_proof_format` returns false if and only if at least
one of SIX field rules is violated — the claim's five plus a non-empty
`app_id`. -/
theorem C1_amended_false_iff_six_rules (p : SignatureProof) :
    verify_proof_format p = false ↔
      (p.instance_id_bytes32.length ≠ 32 ∨ p.derived_public_key.length ≠ 20 ∨
       p.app_signature.length < 65 ∨ p.kms_signature.length < 65 ∨
       p.purpose = "" ∨ p.app_id = []) := by
  unfold verify_proof_format
  split_ifs with h1 h2 h3 h4 h5 h6 <;> simp_all

/-- C2: `verify_proof_format` is a total function of the proof value alone
(so no exception can escape it), and it returns true exactly when all six
rules hold: hash length 32, pubkey length 20, both signatures at least 65
bytes, non-empty purpose and non-empty `app_id`. -/
theorem C2_verify_true_iff_all_rules (p : SignatureProof) :
    verify_proof_format p = true ↔
      (p.instance_id_bytes32.length = 32 ∧ p.derived_public_key.length = 20 ∧
       65 ≤ p.app_signature.length ∧ 65 ≤ p.kms_signature.length ∧
       p.purpose ≠ "" ∧ p.app_id ≠ []) := by
  unfold verify_proof_format
  split_ifs with h1 h2 h3 h4 h5 h6 <;> simp_all

/-- C5: after a poll cycle the leadership flag equals the comparison of the
ledger-reported leader with the local account identity (whatever the state of
the never-assigned signing key); the Follower → Leader transition happens
exactly on a cycle where they are equal, Leader → Follower exactly on a cycle
where they are not, and the flag cannot be both true and false. -/
theorem C5_leader_flag_iff (pk : Option String) (w cl : String) (r : Bool)
    (st : CounterState) :
    ((check_leader_status pk w cl r st).1.is_leader = true ↔ cl = w) ∧
    (st.is_leader = false →
      ((check_leader_status pk w cl r st).1.is_leader = true ↔ cl = w)) ∧
    (st.is_leader = true →
      ((check_leader_status pk w cl r st).1.is_leader = false ↔ cl ≠ w)) ∧
    ¬(((check_leader_status pk w cl r st).1.is_leader = true) ∧
      ((check_leader_status pk w cl r st).1.is_leader = false)) := by
  unfold check_leader_status
  split_ifs <;> simp_all

theorem C5_witness :
    ((check_leader_status none "0xa" "0xa" true initState).1.is_leader = true ↔
      ("0xa" : String) = "0xa") ∧
    ((check_leader_status none "0xa" "0xb" true initState).1.is_leader = true ↔
      ("0xb" : String) = "0xa") :=
  ⟨(C5_leader_flag_iff none "0xa" "0xa" true initState).1,
   (C5_leader_flag_iff none "0xa" "0xb" true initState).2.1 rfl⟩

/-- C6 (code bug): because `__init__` never assigns `self.wallet_private_key`,
every `castVote` signing attempt raises and is swallowed by the blanket
except, so no vote transaction of either kind is ever issued, in any poll
cycle, whatever the reported leader, probe outcome or prior state. -/
theorem C6_no_vote_issued (w cl : String) (r : Bool) (st : CounterState) :
    (check_leader_status none w cl r st).2 = [] := by
  unfold check_leader_status vote_no_confidence vote_confidence
  split_ifs <;> simp

/-- C8 (code bug): evaluating `increment_counter` at a leader state shows the
counter bumped to 1 with no log entry appended and a NameError outcome
instead of the success response; at a follower state it NameErrors (missing
`web` import) with the state unchanged instead of returning the 403. -/
theorem C8_increment_name_error :
    (increment_counter "0xa" 5 { initState with is_leader := true
      }).1.counter_value = 1 ∧
    (increment_counter "0xa" 5 { initState with is_leader := true
      }).1.operation_log = [] ∧
    (increment_counter "0xa" 5 { initState with is_leader := true }).2 =
      .nameError ∧
    (increment_counter "0xa" 5 initState).1 = initState ∧
    (increment_counter "0xa" 5 initState).2 = .nameError := by
  refine ⟨rfl, rfl, rfl, rfl, rfl⟩

/-- C10 (code bug): after becoming leader and serving one increment request
the reachable state has counter value 1 but an empty operation log (the
NameError at `time.time()` fires after the increment and before the append),
so `counter_value` does not equal the log length and no entry records 1. -/
theorem C10_counter_log_misaligned :
    (runEvents none "0xa" [NodeEvent.poll "0xa" true,
        NodeEvent.incr 3]).counter_value = 1 ∧
    (runEvents none "0xa" [NodeEvent.poll "0xa" true,
        NodeEvent.incr 3]).operation_log.length = 0 := by
  refine ⟨rfl, rfl⟩

theorem generate_proof_chain_cases (env : DstackEnv) (iid kp pur : String) :
    generate_proof env iid kp pur =
      match (env.get_key kp pur).signature_chain with
      | [] => .error (.insufficientChain 0)
      | [_] => .error (.insufficientChain 1)
      | s0 :: s1 :: _ =>
        match normalizeSig s0, normalizeSig s1 with
        | some a, some k =>
          match hexDecodeL
              ((env.from_key_address (env.get_key kp pur).key).data.drop 2) with
          | some pk =>
            match hexDecodeL (env.info_app_id.data.drop 2) with
            | some ab =>
              .ok { instance_id_bytes32 := env.sha256 iid
                    derived_public_key := pk
                    app_signature := a
                    kms_signature := k
                    purpose := pur
                    app_id := ab ++ List.replicate (32 - ab.length) 0 }
            | none => .error .valueError
          | none => .error .valueError
        | _, _ => .error .valueError := rfl

/-- C3: `generate_proof` fails with the insufficient-chain error exactly when
the key provider's signature chain has length 0 or 1; with a chain of length
at least 2 and well-formed signature, address and app-id encodings it
succeeds taking element 0 as the app signature and element 1 as the KMS
signature; and the result ignores every chain element beyond index 1. -/
theorem C3_generate_proof_chain (e1 e2 : DstackEnv) (iid kp pur : String) :
    ((∃ n, generate_proof e1 iid kp pur = .error (.insufficientChain n)) ↔
      (e1.get_key kp pur).signature_chain.length < 2) ∧
    (∀ s0 s1 rest a k pk ab,
      (e1.get_key kp pur).signature_chain = s0 :: s1 :: rest →
      normalizeSig s0 = some a → normalizeSig s1 = some k →
      hexDecodeL ((e1.from_key_address (e1.get_key kp pur).key).data.drop 2) =
        some pk →
      hexDecodeL (e1.info_app_id.data.drop 2) = some ab →
      generate_proof e1 iid kp pur =
        .ok { instance_id_bytes32 := e1.sha256 iid
              derived_public_key := pk
              app_signature := a
              kms_signature := k
              purpose := pur
              app_id := ab ++ List.replicate (32 - ab.length) 0 }) ∧
    (e1.sha256 = e2.sha256 → e1.info_app_id = e2.info_app_id →
     e1.from_key_address = e2.from_key_address →
     (e1.get_key kp pur).key = (e2.get_key kp pur).key →
     ∀ s0 s1 r1 r2,
       (e1.get_key kp pur).signature_chain = s0 :: s1 :: r1 →
       (e2.get_key kp pur).signature_chain = s0 :: s1 :: r2 →
       generate_proof e1 iid kp pur = generate_proof e2 iid kp pur) := by
  refine ⟨?_, ?_, ?_⟩
  · cases hc : (e1.get_key kp pur).signature_chain with
    | nil =>
      simp only [generate_proof_chain_cases, hc]
      exact ⟨fun _ => by simp, fun _ => ⟨0, rfl⟩⟩
    | cons s0 t =>
      cases t with
      | nil =>
        simp only [generate_proof_chain_cases, hc]
        exact ⟨fun _ => by simp, fun _ => ⟨1, rfl⟩⟩
      | cons s1 rest =>
        simp only [generate_proof_chain_cases, hc]
        constructor
        · rintro ⟨n, hn⟩
          cases h0 : normalizeSig s0 <;> cases h1 : normalizeSig s1 <;>
            rw [h0, h1] at hn <;> simp at hn
          cases h2 : hexDecodeL
              ((e1.from_key_address (e1.get_key kp pur).key).data.drop 2) <;>
            rw [h2] at hn
          · simp at hn
          · cases h3 : hexDecodeL (e1.info_app_id.data.drop 2) <;>
              rw [h3] at hn <;> simp at hn
        · intro hlt
          simp only [List.length_cons] at hlt
          omega
  · intro s0 s1 rest a k pk ab hc h0 h1 h2 h3
    simp only [generate_proof_chain_cases, hc, h0, h1, h2, h3]
  · intro hsha happ haddr hkey s0 s1 r1 r2 hc1 hc2
    simp only [generate_proof_chain_cases, hc1, hc2, hsha, happ, haddr, hkey]

theorem C3_witness :
    generate_proof envOk "node-1" "node/p" "ethereum" = .ok sampleProof ∧
    generate_proof envOk "node-1" "node/p" "ethereum" =
      generate_proof envTwo "node-1" "node/p" "ethereum" ∧
    (∃ n, generate_proof envShort "node-1" "node/p" "ethereum" =
      .error (.insufficientChain n)) := by
  refine ⟨?_, ?_, ?_⟩
  · have h := (C3_generate_proof_chain envOk envTwo "node-1" "node/p"
        "ethereum").2.1
      (SigItem.bytes (List.replicate 65 1)) (SigItem.bytes (List.replicate 65 2))
      [SigItem.bytes (List.replicate 65 3)]
      (List.replicate 65 1) (List.replicate 65 2)
      (List.replicate 20 17) (List.replicate 32 34)
      rfl rfl rfl (by decide) (by decide)
    rw [h]
    decide
  · exact (C3_generate_proof_chain envOk envTwo "node-1" "node/p"
        "ethereum").2.2 rfl rfl rfl rfl
      (SigItem.bytes (List.replicate 65 1)) (SigItem.bytes (List.replicate 65 2))
      [SigItem.bytes (List.replicate 65 3)] [] rfl rfl
  · exact (C3_generate_proof_chain envShort envShort "node-1" "node/p"
        "ethereum").1.mpr (by decide)

/-- C3 counterexample: a signature chain of length 2 whose element 0 is text
that is not valid hex makes `generate_proof` fail (the `bytes.fromhex` call
raises ValueError), refuting the claim's unconditional "when the chain has
length >= 2 it succeeds". -/
theorem C3_counterexample :
    (envBadHex.get_key "node/p" "ethereum").signature_chain.length = 2 ∧
    generate_proof envBadHex "node-1" "node/p" "ethereum" =
      .error .valueError := by
  constructor
  · decide
  · decide

/-- C4: when `walletToTokenId` reports 0 for the wallet, registration-data
assembly fails with the authorization error, and its outcome does not depend
on the key-provider environment at all (no key-provider call is consumed and
no proof is constructed); for a non-zero token id it proceeds to proof
generation and assembles the registration data from the proof. -/
theorem C4_token_gate (c : ContractEnv) (e1 e2 : DstackEnv)
    (w iid kp pur : String) :
    (c.walletToTokenId w = 0 →
      get_registration_data c e1 w iid kp pur = .error (.noNFT w) ∧
      get_registration_data c e1 w iid kp pur =
        get_registration_data c e2 w iid kp pur) ∧
    (c.walletToTokenId w ≠ 0 →
      get_registration_data c e1 w iid kp pur =
        match generate_proof e1 iid kp pur with
        | .error e => .error (.genError e)
        | .ok proof =>
          .ok { token_id := c.walletToTokenId w
                instance_id_bytes32 := proof.instance_id_bytes32
                derived_public_key := proof.derived_public_key
                app_signature := proof.app_signature
                kms_signature := proof.kms_signature
                purpose := proof.purpose }) := by
  constructor
  · intro h
    constructor <;> simp [get_registration_data, h]
  · intro h
    simp [get_registration_data, h]

theorem C4_witness :
    get_registration_data contractZero envOk "0xw" "i" "p" "ethereum" =
      .error (.noNFT "0xw") ∧
    get_registration_data contractZero envOk "0xw" "i" "p" "ethereum" =
      get_registration_data contractZero envShort "0xw" "i" "p" "ethereum" ∧
    get_registration_data contractOne envOk "0xw" "i" "p" "ethereum" =
      .ok sampleRegData := by
  refine ⟨?_, ?_, ?_⟩
  · exact ((C4_token_gate contractZero envOk envShort "0xw" "i" "p"
      "ethereum").1 rfl).1
  · exact ((C4_token_gate contractZero envOk envShort "0xw" "i" "p"
      "ethereum").1 rfl).2
  · have h := (C4_token_gate contractOne envOk envShort "0xw" "i" "p"
      "ethereum").2 (by decide)
    rw [h]
    decide

theorem generate_proof_ok_app_id (env : DstackEnv) (iid kp pur : String)
    (p : SignatureProof) (hok : generate_proof env iid kp pur = .ok p) :
    ∃ ab, hexDecodeL (env.info_app_id.data.drop 2) = some ab ∧
      p.app_id = ab ++ List.replicate (32 - ab.length) 0 := by
  rw [generate_proof_chain_cases] at hok
  split at hok
  · simp at hok
  · simp at hok
  · split at hok
    · split at hok
      · split at hok
        · rename_i a k heqa heqk pk heqpk ab heqab
          refine ⟨ab, heqab, ?_⟩
          rw [Except.ok.injEq] at hok
          rw [← hok]
        · simp at hok
      · simp at hok
    · simp at hok

/-- C7 counterexample: in `envLong` the key provider's app id decodes to 33
bytes; `generate_proof` succeeds but the resulting `app_id` has length 33,
not exactly 32, so the claim fails for this app-id value. -/
theorem C7_counterexample :
    (generate_proof envLong "i" "p" "ethereum").map
      (fun pr => pr.app_id.length) = .ok 33 ∧ (33 : Nat) ≠ 32 := by
  constructor
  · decide
  · decide

/-- C7 (amended): `generate_proof` normalizes the app id by stripping the
two-character prefix, hex-decoding, and right-padding with zero bytes; when
the decoded app id is at most 32 bytes the result is exactly 32 bytes, while
longer values are passed through unpadded (and exceed 32 bytes). -/
theorem C7_amended_right_pad (env : DstackEnv) (iid kp pur : String)
    (ab : List Nat) (p : SignatureProof)
    (hok : generate_proof env iid kp pur = .ok p)
    (hab : hexDecodeL (env.info_app_id.data.drop 2) = some ab) :
    p.app_id = ab ++ List.replicate (32 - ab.length) 0 ∧
    (ab.length ≤ 32 → p.app_id.length = 32) := by
  obtain ⟨ab2, hab2, happ⟩ := generate_proof_ok_app_id env iid kp pur p hok
  rw [hab, Option.some.injEq] at hab2
  subst hab2
  refine ⟨happ, ?_⟩
  intro hle
  rw [happ]
  simp only [List.length_append, List.length_replicate]
  omega

theorem C7_witness : sampleProof.app_id.length = 32 :=
  (C7_amended_right_pad envOk "i" "p" "ethereum" (List.replicate 32 34)
    sampleProof (by decide) (by decide)).2 (by decide)

/-- C9 counterexample: two key-provider environments that differ only in the
app id produce the same `RegistrationData` even though the generated proofs
carry different `app_id` values — so the proof's `app_id` does not appear in
the `RegistrationData` at all (the dataclass has no such field). -/
theorem C9_counterexample :
    get_registration_data contractOne envOk "0xw" "i" "p" "ethereum" =
      get_registration_data contractOne envOkB "0xw" "i" "p" "ethereum" ∧
    (generate_proof envOk "i" "p" "ethereum").map (fun pr => pr.app_id) ≠
      (generate_proof envOkB "i" "p" "ethereum").map (fun pr => pr.app_id) := by
  constructor
  · decide
  · decide

/-- C9 (amended): a successful registration-data assembly happens only with a
positive token id and carries the five non-app_id fields of the generated
proof unchanged, together with that token id; the proof's `app_id` is
dropped. -/
theorem C9_amended_fields (c : ContractEnv) (env : DstackEnv)
    (w iid kp pur : String) (rd : RegistrationData)
    (h : get_registration_data c env w iid kp pur = .ok rd) :
    ∃ p, generate_proof env iid kp pur = .ok p ∧
      rd.token_id = c.walletToTokenId w ∧ 0 < rd.token_id ∧
      rd.instance_id_bytes32 = p.instance_id_bytes32 ∧
      rd.derived_public_key = p.derived_public_key ∧
      rd.app_signature = p.app_signature ∧
      rd.kms_signature = p.kms_signature ∧
      rd.purpose = p.purpose := by
  by_cases h0 : c.walletToTokenId w = 0
  · simp [get_registration_data, h0] at h
  · rw [get_registration_data] at h
    simp only [h0, if_false] at h
    cases hg : generate_proof env iid kp pur with
    | error e => rw [hg] at h; simp at h
    | ok p =>
      rw [hg] at h
      rw [Except.ok.injEq] at h
      subst h
      exact ⟨p, rfl, rfl, Nat.pos_of_ne_zero h0, rfl, rfl, rfl, rfl, rfl⟩

theorem C9_witness :
    sampleRegData.token_id = contractOne.walletToTokenId "0xw" ∧
    0 < sampleRegData.token_id := by
  obtain ⟨p, -, h1, h2, -⟩ :=
    C9_amended_fields contractOne envOk "0xw" "i" "p" "ethereum" sampleRegData
      (by decide)
  exact ⟨h1, h2⟩
